import Mathlib

/-
Verification development for the ddl-arena-backend repository.

The repository contains several revisions of the same Node.js signaling
server.  Each namespace below shallowly embeds one revision:

  * `SrvJs` — src/server.js, the latest revision (video-room tracking maps
    `activeVideoRooms`, `userSockets`, `roomLifecycle`, the guarded WebRTC
    relays, `handleUserLeaveRoom`, `cleanupRoom`, `updateRoomStatus`, the
    periodic lifecycle sweep, `generateRoomCode`).
  * `P0` — src/unnamed/part_000, the bare-http in-memory revision (the
    5-character `generateRoomCode` with collision retry, the validated
    join route, the age-based room listing and cleanup interval).
  * `P2` — src/unnamed/part_002, the Supabase/Xirsys revision (unguarded
    `socket.to(targetSocketId)` WebRTC relays, the unvalidated join route).
  * `P3` — src/unnamed/part_003, the Supabase revision whose create-room
    route surfaces a durable-backend failure as HTTP 500.

JavaScript `Map`s and plain objects are embedded as association lists
(`List (String × β)`) with unique keys; `Set`s of socket ids as
`List String` in insertion order; timestamps (`Date.now()`, `Date`
objects, ISO strings that are only ever written, compared or subtracted)
as `Nat` milliseconds.  Durable-backend (Supabase) calls are embedded by
an explicit outcome parameter `Backend` (`absent` = no SUPABASE_URL/KEY,
`ok` = the call succeeded, `fail` = the call returned an error), since
the backend itself is outside the repository.
-/

namespace DDL

/-- `Map.get` / object indexing on an association list: the value at the
first matching key, `none` if absent (JS `undefined`). -/
def alookup {β : Type} : List (String × β) → String → Option β
  | [], _ => none
  | (k, v) :: t, key => if k = key then some v else alookup t key

/-- `Map.set` / object assignment: overwrite in place if the key is
present (JS `Map.set` keeps the original insertion position), else
append. -/
def aset {β : Type} : List (String × β) → String → β → List (String × β)
  | [], key, v => [(key, v)]
  | (k, w) :: t, key, v => if k = key then (key, v) :: t else (k, w) :: aset t key v

/-- `Map.delete` / the `delete` operator: remove the entry with the given
key. -/
def adel {β : Type} (l : List (String × β)) (key : String) : List (String × β) :=
  l.filter fun e => decide (e.1 ≠ key)

/-- `Set.add`: append unless already present (JS `Set` keeps insertion
order and ignores re-insertion). -/
def sadd (l : List String) (x : String) : List String :=
  if x ∈ l then l else l ++ [x]

/-- `Set.delete`: remove the element. -/
def sdel (l : List String) (x : String) : List String :=
  l.filter fun y => decide (y ≠ x)

/-- Outcome of one call to the durable backend (Supabase is outside the
repository, so the call's result is an input of the embedding):
`absent` = no `SUPABASE_URL`/`SUPABASE_KEY` configured, `ok` = the query
succeeded, `fail` = the query reported an error. -/
inductive Backend
  | absent
  | ok
  | fail
deriving Repr, DecidableEq

/-- A targeted relay delivery: the event payload as emitted to the target
socket, tagged with `fromSocketId` (the sender's connection id). -/
structure Delivery where
  toSocketId : String
  fromSocketId : String
  payload : String
deriving Repr, DecidableEq

end DDL

open DDL

namespace SrvJs

/-- `userSockets` entry of src/server.js: `{roomId, username, isHost}`. -/
structure UserInfo where
  roomId : String
  username : String
  isHost : Bool
deriving Repr, DecidableEq

/-- `roomLifecycle` entry of src/server.js:
`{created, lastActivity, status, participants}` with `status` one of
`"active"` / `"ended"`. -/
structure Lifecycle where
  created : Nat
  lastActivity : Nat
  status : String
  participants : List String
deriving Repr, DecidableEq

/-- Persisted room record of src/server.js (the fields its `roomData`
object and `updateRoomStatus` write; `game_settings` is an opaque
passthrough never read by the core and is omitted).  `last_activity` is
absent on creation and first written by `updateRoomStatus`, hence
`Option`. -/
structure RoomRec where
  code : String
  host : String
  host_id : String
  players : Nat
  max_players : Nat
  status : String
  created : Nat
  last_activity : Option Nat
  is_live : Bool
  opponent : Option String
  opponent_id : Option String
deriving Repr, DecidableEq

/-- The process-wide mutable state of src/server.js: the connected socket
set (`io.sockets.sockets`), the ambient per-socket fields
(`socket.roomId` / `socket.username` / `socket.isHost`, set on
`join-video-room` and never cleared on leave), and the four global
tables.  `rooms` is the transient persistence table (`global.rooms`),
i.e. the deployment without a configured Supabase backend. -/
structure ServerState where
  connected : List String
  socketRoomId : List (String × String)
  socketUsername : List (String × String)
  socketIsHost : List (String × Bool)
  userSockets : List (String × UserInfo)
  activeVideoRooms : List (String × List String)
  roomLifecycle : List (String × Lifecycle)
  rooms : List (String × RoomRec)
deriving Repr, DecidableEq

/-- The `webrtc-offer`, `webrtc-answer` and `webrtc-ice-candidate`
handlers of src/server.js share one guard:
`const targetSocket = io.sockets.sockets.get(targetSocketId);`
`if (targetSocket && targetSocket.roomId === socket.roomId) { targetSocket.emit(...) } else { console.warn(...) }`
— deliver the payload tagged with the sender's id iff the target socket
is connected and its `roomId` field equals the sender's (JS: two absent
`roomId` fields compare equal, `undefined === undefined`); otherwise
only a warning is logged and nothing is emitted to anyone, the sender
included. -/
def relayTargeted (s : ServerState) (senderId targetId payload : String) : Option Delivery :=
  if targetId ∈ s.connected ∧ alookup s.socketRoomId targetId = alookup s.socketRoomId senderId
  then some ⟨targetId, senderId, payload⟩
  else none

/-- The `room-pong` payload emitted to the target socket:
`{fromSocketId, username: socket.username, isHost: socket.isHost}`. -/
structure PongDelivery where
  toSocketId : String
  fromSocketId : String
  username : Option String
  isHost : Option Bool
deriving Repr, DecidableEq

/-- The `room-pong` handler of src/server.js:
`const targetSocket = io.sockets.sockets.get(toSocketId); if (targetSocket) { targetSocket.emit('room-pong', ...) }`
— delivered whenever the target socket is connected; no room comparison
at all. -/
def relayPong (s : ServerState) (senderId targetId : String) : Option PongDelivery :=
  if targetId ∈ s.connected
  then some ⟨targetId, senderId, alookup s.socketUsername senderId, alookup s.socketIsHost senderId⟩
  else none

/-- In-memory branch of `updateRoomStatus` in src/server.js (the branch
taken when Supabase is not configured): if `global.rooms` has the code,
overwrite `status`, `players`, `last_activity` and
`is_live = participantCount > 0`; otherwise do nothing. -/
def updateRoomStatusMem (rooms : List (String × RoomRec)) (roomCode status : String)
    (participantCount now : Nat) : List (String × RoomRec) :=
  match alookup rooms roomCode with
  | some r =>
      aset rooms roomCode
        { r with
          status := status
          players := participantCount
          last_activity := some now
          is_live := decide (0 < participantCount) }
  | none => rooms

/-- `updateRoomStatus` of src/server.js with a configured durable
backend: the Supabase update is attempted and a failure is only logged
(`console.error`) inside the surrounding try/catch — the in-memory table
is not written and no error reaches the caller.  Without a backend the
in-memory branch runs. -/
def updateRoomStatusRoute (backend : Backend) (rooms : List (String × RoomRec))
    (roomCode status : String) (participantCount now : Nat) : List (String × RoomRec) :=
  match backend with
  | .ok => rooms
  | .fail => rooms
  | .absent => updateRoomStatusMem rooms roomCode status participantCount now

/-- `cleanupRoom` of src/server.js (in-memory deployment): delete the
room record from storage and discard the lifecycle entry.  Both deletes
are idempotent. -/
def cleanupRoom (s : ServerState) (roomCode : String) : ServerState :=
  { s with
    rooms := adel s.rooms roomCode
    roomLifecycle := adel s.roomLifecycle roomCode }

/-- The `join-video-room` handler of src/server.js.  Steps, in source
order: the `socket.rooms.forEach(... socket.leave(room))` loop touches
only the transport-level (socket.io) broadcast membership — none of the
tracking tables below are updated for a previously joined room; then the
ambient socket fields are set, `activeVideoRooms` gains the socket id,
`userSockets` is overwritten, the lifecycle entry is created if absent
and refreshed, and finally `updateRoomStatus(roomId, 'active', size)` is
called with the participant count after the insertion.  (The
`room-users` reply and `user-joined` broadcast carry no state.) -/
def joinVideoRoom (s : ServerState) (socketId roomId username : String)
    (isHost : Bool) (now : Nat) : ServerState :=
  let s1 := { s with
    socketRoomId := aset s.socketRoomId socketId roomId
    socketUsername := aset s.socketUsername socketId username
    socketIsHost := aset s.socketIsHost socketId isHost }
  let parts := sadd ((alookup s1.activeVideoRooms roomId).getD []) socketId
  let s2 := { s1 with
    activeVideoRooms := aset s1.activeVideoRooms roomId parts
    userSockets := aset s1.userSockets socketId ⟨roomId, username, isHost⟩ }
  let lc0 := (alookup s2.roomLifecycle roomId).getD ⟨now, now, "active", []⟩
  let lc := { lc0 with lastActivity := now, participants := sadd lc0.participants socketId }
  let s3 := { s2 with roomLifecycle := aset s2.roomLifecycle roomId lc }
  { s3 with rooms := updateRoomStatusMem s3.rooms roomId "active" parts.length now }

/-- `handleUserLeaveRoom` of src/server.js (shared by `leave-video-room`
and `disconnect`).  No-op when the socket is not in `userSockets`.
Otherwise remove it from the room's participant set; if the set became
empty, drop the `activeVideoRooms` entry, mark the lifecycle entry
`ended` and call `cleanupRoom` (which deletes the room record and the
lifecycle entry); if not, refresh the room status (`'active'`, remaining
count) and the lifecycle.  Finally drop the `userSockets` entry.  The
ambient `socket.roomId` field is not cleared. -/
def handleUserLeaveRoom (s : ServerState) (socketId : String) (now : Nat) : ServerState :=
  match alookup s.userSockets socketId with
  | none => s
  | some ui =>
    let roomId := ui.roomId
    let s1 :=
      match alookup s.activeVideoRooms roomId with
      | none => s
      | some parts =>
        let remaining := sdel parts socketId
        if remaining.length = 0 then
          let s2 := { s with activeVideoRooms := adel s.activeVideoRooms roomId }
          let s3 :=
            match alookup s2.roomLifecycle roomId with
            | some lc =>
                let lc2 := { lc with status := "ended", participants := sdel lc.participants socketId }
                { s2 with roomLifecycle := aset s2.roomLifecycle roomId lc2 }
            | none => s2
          cleanupRoom s3 roomId
        else
          let s2 := { s with
            activeVideoRooms := aset s.activeVideoRooms roomId remaining
            rooms := updateRoomStatusMem s.rooms roomId "active" remaining.length now }
          match alookup s2.roomLifecycle roomId with
          | some lc =>
              let lc2 := { lc with lastActivity := now, participants := sdel lc.participants socketId }
              { s2 with roomLifecycle := aset s2.roomLifecycle roomId lc2 }
          | none => s2
    { s1 with userSockets := adel s1.userSockets socketId }

/-- `STALE_TIMEOUT` of the periodic cleanup in src/server.js: 30 minutes
in milliseconds. -/
def STALE_TIMEOUT : Nat := 30 * 60 * 1000

/-- Deletion condition of the periodic cleanup in src/server.js:
`lifecycle.status === 'ended' || (lifecycle.participants.size === 0 && now - lastActivity > STALE_TIMEOUT)`. -/
def sweepDoomed (now : Nat) (lc : Lifecycle) : Bool :=
  decide (lc.status = "ended" ∨ (lc.participants = [] ∧ STALE_TIMEOUT < now - lc.lastActivity))

/-- The periodic cleanup body of src/server.js: iterate over the
lifecycle entries, calling `cleanupRoom` on each entry satisfying
`sweepDoomed`.  (The JS `for..of` over the live `Map` only ever deletes
the entry currently visited, so folding over the initial entry list is
the same iteration.) -/
def sweep (s : ServerState) (now : Nat) : ServerState :=
  s.roomLifecycle.foldl
    (fun acc e => if sweepDoomed now e.2 then cleanupRoom acc e.1 else acc) s

/-- The upper-cased base-36 digit alphabet produced by
`Math.random().toString(36)` followed by `.toUpperCase()`. -/
def base36Upper : List Char := "0123456789ABCDEFGHIJKLMNOPQRSTUVWXYZ".toList

/-- `generateRoomCode` of src/server.js:
`Math.random().toString(36).substring(2, 7).toUpperCase()`.
`fracDigits` is the base-36 digit expansion of the random fraction as
rendered after the leading `"0."` — `Number.prototype.toString(36)`
omits trailing zero digits, so the list can hold fewer than five digits
(e.g. `(0.5).toString(36) = "0.i"` gives `[18]`).  `substring(2, 7)`
keeps at most the first five of them; no length check, no collision
check against existing rooms. -/
def generateRoomCode (fracDigits : List (Fin 36)) : String :=
  ⟨(fracDigits.take 5).map fun i => base36Upper.getD i.val '0'⟩

/-- The `roomData` object built by the create-room route of
src/server.js. -/
def newRoomData (host code : String) (now : Nat) : RoomRec :=
  ⟨code, host, "host_" ++ toString now, 1, 2, "waiting", now, none, false, none, none⟩

/-- Response of the create-room route: HTTP status code plus the room
record echoed on success. -/
structure CreateResponse where
  statusCode : Nat
  room : Option RoomRec
deriving Repr, DecidableEq

/-- `POST /api/rooms` of src/server.js.  Missing host → 400.  With a
configured backend the Supabase insert is tried first; only when it
returns data without error does the route answer from the durable store.
On a backend error (returned or thrown) the route falls through to the
in-memory table and still answers 201 — the same branch taken when no
backend is configured. -/
def createRoomRoute (backend : Backend) (host code : String) (now : Nat)
    (rooms : List (String × RoomRec)) : CreateResponse × List (String × RoomRec) :=
  if host = "" then (⟨400, none⟩, rooms)
  else
    let roomData := newRoomData host code now
    match backend with
    | .ok => (⟨201, some roomData⟩, rooms)
    | .fail => (⟨201, some roomData⟩, aset rooms code roomData)
    | .absent => (⟨201, some roomData⟩, aset rooms code roomData)

/-- In-memory path of `GET /api/rooms` in src/server.js:
`Array.from(global.rooms.values()).filter(room => room.status !== 'ended')`
— no age filter and no ordering (the values come out in table insertion
order).  (The route's per-room `actualParticipants` decoration adds
fields but neither removes nor reorders rooms.) -/
def listRoomsMem (rooms : List (String × RoomRec)) : List RoomRec :=
  (rooms.map Prod.snd).filter fun r => decide (r.status ≠ "ended")

/-- Registry lookup failure. -/
inductive RegError
  | notFound
deriving Repr, DecidableEq

/-- `getRoom` against the in-memory table, as the
`GET /api/rooms/:code` route of the part_002/part_003 revisions reads it
(`global.rooms.has(roomCode)` else 404 `Room not found`); src/server.js
itself keeps only the storage side of it. -/
def getRoomMem (rooms : List (String × RoomRec)) (code : String) : Except RegError RoomRec :=
  match alookup rooms code with
  | some r => .ok r
  | none => .error .notFound

/-- Stated from the words of claim C6 (not from the source; used only to
exhibit a divergence): the room records the claim predicts to survive a
sweep — a record is deleted exactly when it has no corresponding
lifecycle entry and `now - createdAt` exceeds the max-age threshold. -/
def claimSweepRooms (lc : List (String × Lifecycle)) (rooms : List (String × RoomRec))
    (now maxAge : Nat) : List (String × RoomRec) :=
  rooms.filter fun e => decide (¬ (alookup lc e.1 = none ∧ maxAge < now - e.2.created))

end SrvJs

namespace P0

/-- Room object of src/unnamed/part_000 (`game_settings` opaque
passthrough omitted). -/
structure Room where
  code : String
  host : String
  hostId : String
  created : Nat
  status : String
  players : Nat
  maxPlayers : Nat
  opponent : Option String
  opponentId : Option String
deriving Repr, DecidableEq

/-- The `chars` alphabet of `generateRoomCode` in part_000. -/
def codeChars : List Char := "ABCDEFGHIJKLMNOPQRSTUVWXYZ0123456789".toList

/-- One iteration of part_000's `generateRoomCode` loop consumes exactly
five draws `Math.floor(Math.random() * chars.length)`, each in
`0..35`. -/
structure Draw where
  i0 : Fin 36
  i1 : Fin 36
  i2 : Fin 36
  i3 : Fin 36
  i4 : Fin 36
deriving Repr, DecidableEq

/-- The five-character candidate built by one loop iteration:
`result += chars.charAt(...)` five times. -/
def codeOfDraw (d : Draw) : String :=
  ⟨[codeChars.getD d.i0.val 'A', codeChars.getD d.i1.val 'A', codeChars.getD d.i2.val 'A',
    codeChars.getD d.i3.val 'A', codeChars.getD d.i4.val 'A']⟩

/-- `generateRoomCode` of part_000: `do { result = ... } while (rooms[result])`
— draw candidates until one is not a key of `rooms`.  The embedding
takes the sequence of random draws as input and returns the first fresh
candidate; `none` models the loop not terminating within the supplied
draws. -/
def generateRoomCode (draws : List Draw) (roomKeys : List String) : Option String :=
  (draws.map codeOfDraw).find? fun c => decide (c ∉ roomKeys)

/-- Failure modes of part_000's join route, in the order its guards
appear: missing username → 400; absent room → 404; full / self-join /
in-progress → 400. -/
inductive JoinError
  | badRequest
  | notFound
  | roomFull
  | selfJoin
  | gameInProgress
deriving Repr, DecidableEq

/-- `POST /api/rooms/:code/join` of part_000, guards in source order:
`!username` → 400; `!room` → 404 `Room not found`;
`room.players >= room.maxPlayers` → 400 `Room is full`;
`room.host === username` → 400 `Cannot join your own room`;
`room.status === 'playing'` → 400 `Game is already in progress`;
otherwise set `players = 2`, `status = 'ready'`, `opponent`,
`opponentId = username + '_' + Date.now()`.  The returned list is the
`rooms` table after the request (unchanged on every failure path). -/
def joinRoom (rooms : List (String × Room)) (code username : String) (ts : Nat) :
    Except JoinError Room × List (String × Room) :=
  if username = "" then (.error .badRequest, rooms)
  else
    match alookup rooms code with
    | none => (.error .notFound, rooms)
    | some room =>
      if room.maxPlayers ≤ room.players then (.error .roomFull, rooms)
      else if room.host = username then (.error .selfJoin, rooms)
      else if room.status = "playing" then (.error .gameInProgress, rooms)
      else
        let updated := { room with
          players := 2
          status := "ready"
          opponent := some username
          opponentId := some (username ++ "_" ++ toString ts) }
        (.ok updated, aset rooms code updated)

/-- `maxAge` of part_000: 24 hours in milliseconds. -/
def MAX_AGE : Nat := 24 * 60 * 60 * 1000

/-- `GET /api/rooms` of part_000:
`Object.values(rooms).filter(room => room.status !== 'completed' && (Date.now() - room.created) < 24*60*60*1000)`
— note the status compared against is `'completed'`, and no ordering is
applied (object values come out in insertion order). -/
def listActiveRooms (rooms : List (String × Room)) (now : Nat) : List Room :=
  (rooms.map Prod.snd).filter fun r =>
    decide (r.status ≠ "completed" ∧ now - r.created < MAX_AGE)

/-- The hourly cleanup interval of part_000: delete every room with
`now - rooms[code].created > maxAge`.  (`Object.keys` snapshots the keys
before the deletes, and keys are unique, so the loop is a filter.) -/
def cleanupOldRooms (rooms : List (String × Room)) (now : Nat) : List (String × Room) :=
  rooms.filter fun e => decide (¬ (MAX_AGE < now - e.2.created))

end P0

namespace P2

/-- The slice of part_002's socket state its targeted relays read: the
connected socket set.  (`socket.to(id)` needs no tracking tables — every
socket is a member of the broadcast room named by its own id.)
`socketRoomId` is the ambient `socket.roomId` field set by part_002's
`join-video-room`, carried here to express which room each connection is
in. -/
structure SigState where
  connected : List String
  socketRoomId : List (String × String)
deriving Repr, DecidableEq

/-- The `webrtc-offer` / `webrtc-answer` / `webrtc-ice-candidate`
handlers of part_002: `socket.to(targetSocketId).emit(..., {fromSocketId: socket.id, ...})`
— emit to the broadcast room named by the target id, excluding the
sender.  The target receives the payload whenever it is connected (and
is not the sender); no comparison of rooms anywhere. -/
def relayTargeted (s : SigState) (senderId targetId payload : String) : Option Delivery :=
  if targetId ∈ s.connected ∧ targetId ≠ senderId
  then some ⟨targetId, senderId, payload⟩
  else none

/-- Persisted room record as part_002's routes write it (`game_settings`
opaque passthrough omitted; `opponent` / `opponent_id` appear on
join). -/
structure RoomRec where
  code : String
  host : String
  host_id : String
  players : Nat
  max_players : Nat
  status : String
  created : Nat
  opponent : Option String
  opponent_id : Option String
deriving Repr, DecidableEq

/-- Result of part_002's join route. -/
inductive JoinResult
  | ok (r : RoomRec)
  | badRequest
  | notFound
deriving Repr, DecidableEq

/-- `POST /api/rooms/:code/join` of part_002 (in-memory branch; the
Supabase branch is the same logic against the durable table):
`!username` → 400; room absent → 404; otherwise — with no fullness,
self-join or in-progress check — unconditionally overwrite
`opponent = username`, `opponent_id = 'player_' + Date.now()`,
`players = 2`, `status = 'ready'` and store the updated room. -/
def joinRoute (rooms : List (String × RoomRec)) (roomCode username : String) (ts : Nat) :
    JoinResult × List (String × RoomRec) :=
  if username = "" then (.badRequest, rooms)
  else
    match alookup rooms roomCode with
    | none => (.notFound, rooms)
    | some room =>
      let updated := { room with
        opponent := some username
        opponent_id := some ("player_" ++ toString ts)
        players := 2
        status := "ready" }
      (.ok updated, aset rooms roomCode updated)

end P2

namespace P3

/-- The `roomData` record of part_003's create-room route
(`game_settings` opaque passthrough omitted; part_003 writes no
`is_live`). -/
structure RoomRec where
  code : String
  host : String
  host_id : String
  players : Nat
  max_players : Nat
  status : String
  created : Nat
deriving Repr, DecidableEq

/-- Result of part_003's create-room route. -/
inductive CreateResult
  | created (r : RoomRec)
  | badRequest
  | dbError
deriving Repr, DecidableEq

/-- `POST /api/rooms` of part_003 (identical in part_002): missing host
→ 400; with a configured backend, a Supabase insert error is surfaced to
the caller as HTTP 500 `Database error` and nothing is written anywhere;
the in-memory table is used only when no backend is configured at
all. -/
def createRoomRoute (backend : Backend) (host code : String) (now : Nat)
    (rooms : List (String × RoomRec)) : (Nat × CreateResult) × List (String × RoomRec) :=
  if host = "" then ((400, .badRequest), rooms)
  else
    let roomData : RoomRec := ⟨code, host, "host_" ++ toString now, 1, 2, "waiting", now⟩
    match backend with
    | .ok => ((201, .created roomData), rooms)
    | .fail => ((500, .dbError), rooms)
    | .absent => ((201, .created roomData), aset rooms code roomData)

end P3

/-- Two connected sockets whose `roomId` fields name different rooms
(src/server.js state shape). -/
def webrtcCrossState : SrvJs.ServerState :=
  ⟨["x", "y"], [("x", "A"), ("y", "B")], [], [], [], [], [], []⟩

/-- Two connected sockets in different rooms (part_002 state shape). -/
def p2CrossState : P2.SigState :=
  ⟨["x", "y"], [("x", "A"), ("y", "B")]⟩

/-- A single fresh connection and otherwise empty tables. -/
def c2Start : SrvJs.ServerState :=
  ⟨["c1"], [], [], [], [], [], [], []⟩

/-- The state after connection `c1` joins video room `A` and then video
room `B` without disconnecting. -/
def c2AfterBoth : SrvJs.ServerState :=
  SrvJs.joinVideoRoom (SrvJs.joinVideoRoom c2Start "c1" "A" "u1" true 1000) "c1" "B" "u1" true 2000

/-- A part_000 room that is full (`players = maxPlayers = 2`). -/
def c3P0Room : P0.Room :=
  ⟨"AAAAA", "alice", "alice_1", 0, "ready", 2, 2, some "bob", some "bob_0"⟩

/-- A part_002 room that is full (`players = max_players = 2`). -/
def c3P2Room : P2.RoomRec :=
  ⟨"AAAAA", "alice", "host_1", 2, 2, "ready", 0, some "bob", some "player_1"⟩

/-- Persisted record for room `R`. -/
def c4Room : SrvJs.RoomRec := SrvJs.newRoomData "u" "R" 0

/-- A room `R` whose only tracked connection is `c1`, with its lifecycle
entry and persisted record present. -/
def c4State : SrvJs.ServerState :=
  ⟨["c1"], [("c1", "R")], [("c1", "u")], [("c1", true)],
   [("c1", ⟨"R", "u", true⟩)], [("R", ["c1"])],
   [("R", ⟨0, 0, "active", ["c1"]⟩)], [("R", c4Room)]⟩

/-- A recently created persisted record for room `R`. -/
def c6Room : SrvJs.RoomRec := SrvJs.newRoomData "alice" "R" 500

/-- A state holding room `R`'s persisted record together with a
lifecycle entry for `R` whose status is `ended`. -/
def c6EndedState : SrvJs.ServerState :=
  ⟨[], [], [], [], [], [], [("R", ⟨0, 0, "ended", []⟩)], [("R", c6Room)]⟩

/-- Persisted record for room `S`. -/
def c6StaleRoom : SrvJs.RoomRec := SrvJs.newRoomData "bob" "S" 0

/-- A state holding room `S`'s persisted record together with an
`active` lifecycle entry for `S` with no participants and last activity
at time 0. -/
def c6StaleState : SrvJs.ServerState :=
  ⟨[], [], [], [], [], [], [("S", ⟨0, 0, "active", []⟩)], [("S", c6StaleRoom)]⟩

/-- A part_000 room whose status is the literal string `ended`. -/
def c8Room : P0.Room :=
  ⟨"ABCDE", "alice", "alice_1", 1000, "ended", 2, 2, some "bob", some "bob_2"⟩

/-- Persisted record for room `R` awaiting its first video join. -/
def c9Room : SrvJs.RoomRec := SrvJs.newRoomData "alice" "R" 0

/-- A connected socket and a stored record for room `R`, before any
video join. -/
def c9State : SrvJs.ServerState :=
  ⟨["c1"], [], [], [], [], [], [], [("R", c9Room)]⟩

namespace DDL

theorem alookup_aset_self {β : Type} (l : List (String × β)) (k : String) (v : β) :
    alookup (aset l k v) k = some v := by
  induction l with
  | nil => simp [aset, alookup]
  | cons e t ih =>
    obtain ⟨a, b⟩ := e
    by_cases h : a = k
    · simp [aset, h, alookup]
    · simp [aset, h, alookup, ih]

theorem alookup_aset_of_ne {β : Type} (l : List (String × β)) (k k' : String) (v : β)
    (h : k' ≠ k) : alookup (aset l k v) k' = alookup l k' := by
  induction l with
  | nil => simp [aset, alookup, Ne.symm h]
  | cons e t ih =>
    obtain ⟨a, b⟩ := e
    by_cases hak : a = k
    · subst hak
      simp [aset, alookup, Ne.symm h]
    · by_cases hak' : a = k'
      · simp [aset, hak, alookup, hak', h]
      · simp [aset, hak, alookup, hak', ih]

theorem alookup_adel_self {β : Type} (l : List (String × β)) (k : String) :
    alookup (adel l k) k = none := by
  induction l with
  | nil => simp [adel, alookup]
  | cons e t ih =>
    obtain ⟨a, b⟩ := e
    by_cases h : a = k
    · simpa [adel, List.filter_cons, h] using ih
    · simpa [adel, List.filter_cons, h, alookup] using ih

theorem alookup_adel_of_ne {β : Type} (l : List (String × β)) (k k' : String)
    (h : k' ≠ k) : alookup (adel l k) k' = alookup l k' := by
  induction l with
  | nil => simp [adel, alookup]
  | cons e t ih =>
    obtain ⟨a, b⟩ := e
    by_cases hak : a = k
    · subst hak
      simpa [adel, List.filter_cons, alookup, Ne.symm h] using ih
    · by_cases hak' : a = k'
      · simp [adel, List.filter_cons, hak, alookup, hak', h]
      · simpa [adel, List.filter_cons, hak, alookup, hak'] using ih

end DDL

/-- Shared helper: the src/server.js targeted-relay guard rejects any
pair of connections whose `roomId` fields hold different rooms. -/
theorem relayTargeted_drop_of_room_ne (s : SrvJs.ServerState) (a b p A B : String)
    (hA : alookup s.socketRoomId a = some A) (hB : alookup s.socketRoomId b = some B)
    (hne : A ≠ B) : SrvJs.relayTargeted s a b p = none := by
  have hcond : ¬ (b ∈ s.connected ∧ alookup s.socketRoomId b = alookup s.socketRoomId a) := by
    rw [hA, hB]
    rintro ⟨-, heq⟩
    exact hne (Option.some.injEq _ _ ▸ heq).symm
  simp [SrvJs.relayTargeted, hcond]

/-- Claim C1, counterexample: in the part_002 revision (a cited source of
the claim) the `webrtc-ice-candidate` handler forwards with
`socket.to(targetSocketId).emit(...)` and never compares rooms, so a
message from connection `x` tracked in room `A` targeting connection `y`
tracked in room `B` is delivered to `y` — the claim says such a message
is never delivered. -/
theorem C1_cross_room_delivery_in_p2 :
    alookup p2CrossState.socketRoomId "x" = some "A"
    ∧ alookup p2CrossState.socketRoomId "y" = some "B"
    ∧ P2.relayTargeted p2CrossState "x" "y" "cand0" = some ⟨"y", "x", "cand0"⟩ := by
  decide

/-- Claim C1, amended: in src/server.js each targeted relay
(`webrtc-offer` / `webrtc-answer` / `webrtc-ice-candidate`) delivers the
payload, tagged with the sender's connection id, exactly when the target
is connected and the target's tracked room (its `roomId` field, unset
for a connection that never joined) equals the sender's; in every other
case nothing is emitted at all — in particular a message from a
connection in room `A` targeting a connection in room `B` is never
delivered.  In the part_002 revision the same events are instead
forwarded to any connected target other than the sender, with no room
comparison. -/
theorem C1_relay_guard_characterization :
    (∀ (s : SrvJs.ServerState) (a b p : String),
        (SrvJs.relayTargeted s a b p = some ⟨b, a, p⟩
          ↔ b ∈ s.connected ∧ alookup s.socketRoomId b = alookup s.socketRoomId a)
        ∧ (∀ d, SrvJs.relayTargeted s a b p = some d → d = ⟨b, a, p⟩)
        ∧ (∀ A B, alookup s.socketRoomId a = some A → alookup s.socketRoomId b = some B →
            A ≠ B → SrvJs.relayTargeted s a b p = none))
    ∧ (∀ (s : P2.SigState) (a b p : String),
        P2.relayTargeted s a b p = some ⟨b, a, p⟩ ↔ b ∈ s.connected ∧ b ≠ a) := by
  constructor
  · intro s a b p
    refine ⟨?_, ?_, ?_⟩
    · by_cases h : b ∈ s.connected ∧ alookup s.socketRoomId b = alookup s.socketRoomId a
      · simp [SrvJs.relayTargeted, h]
      · simp [SrvJs.relayTargeted, h]
    · intro d
      unfold SrvJs.relayTargeted
      split
      · intro hd
        exact (Option.some.injEq _ _ ▸ hd).symm
      · intro hd
        exact absurd hd (by simp)
    · intro A B hA hB hne
      exact relayTargeted_drop_of_room_ne s a b p A B hA hB hne
  · intro s a b p
    by_cases h : b ∈ s.connected ∧ b ≠ a
    · simp [P2.relayTargeted, h]
    · simp [P2.relayTargeted, h]

/-- Claim C1, witness: applying the cross-room part of the server.js
characterization at a concrete state — sender in room `A`, connected
target in room `B` — the relay delivers nothing. -/
theorem C1_relay_guard_witness :
    SrvJs.relayTargeted webrtcCrossState "x" "y" "cand1" = none :=
  (C1_relay_guard_characterization.1 webrtcCrossState "x" "y" "cand1").2.2 "A" "B"
    (by decide) (by decide) (by decide)

/-- Claim C2: evaluating the code at the failing input.  Connection `c1`
joins video room `A`, then joins video room `B` without disconnecting.
The `join-video-room` handler's "leave any previous rooms" loop only
calls `socket.leave` (transport-level broadcast membership); it removes
`c1` from neither `activeVideoRooms[A]` nor
`roomLifecycle[A].participants`.  Afterwards `c1` is a member of the
participant sets of both room `A` and room `B` — the one-room-per-
connection invariant the claim states does not hold. -/
theorem C2_ghost_participant :
    alookup c2AfterBoth.activeVideoRooms "A" = some ["c1"]
    ∧ alookup c2AfterBoth.activeVideoRooms "B" = some ["c1"]
    ∧ alookup c2AfterBoth.roomLifecycle "A" = some ⟨1000, 1000, "active", ["c1"]⟩
    ∧ alookup c2AfterBoth.roomLifecycle "B" = some ⟨2000, 2000, "active", ["c1"]⟩
    ∧ alookup c2AfterBoth.userSockets "c1" = some ⟨"B", "u1", true⟩ := by
  decide

/-- Claim C10: the `room-pong` handler of src/server.js delivers its
payload (`fromSocketId`, the sender's ambient `username` / `isHost`
fields) to any connected target, and to no disconnected one; it never
compares rooms, so — unlike the targeted offer/answer/ICE relays, which
drop the same configuration — a pong from a connection in room `A` to a
connection in room `B` is delivered. -/
theorem C10_pong_ignores_rooms :
    (∀ (s : SrvJs.ServerState) (a b : String), b ∈ s.connected →
        SrvJs.relayPong s a b
          = some ⟨b, a, alookup s.socketUsername a, alookup s.socketIsHost a⟩)
    ∧ (∀ (s : SrvJs.ServerState) (a b : String), b ∉ s.connected →
        SrvJs.relayPong s a b = none)
    ∧ (∀ (s : SrvJs.ServerState) (a b A B p : String), b ∈ s.connected →
        alookup s.socketRoomId a = some A → alookup s.socketRoomId b = some B → A ≠ B →
        SrvJs.relayPong s a b
            = some ⟨b, a, alookup s.socketUsername a, alookup s.socketIsHost a⟩
          ∧ SrvJs.relayTargeted s a b p = none) := by
  refine ⟨?_, ?_, ?_⟩
  · intro s a b hb
    simp [SrvJs.relayPong, hb]
  · intro s a b hb
    simp [SrvJs.relayPong, hb]
  · intro s a b A B p hb hA hB hne
    refine ⟨by simp [SrvJs.relayPong, hb], ?_⟩
    exact relayTargeted_drop_of_room_ne s a b p A B hA hB hne

/-- Claim C10, witness: at a concrete state with the sender in room `A`
and the target connected in room `B`, the pong is delivered while the
targeted relay drops. -/
theorem C10_pong_ignores_rooms_witness :
    SrvJs.relayPong webrtcCrossState "x" "y"
        = some ⟨"y", "x", alookup webrtcCrossState.socketUsername "x",
                alookup webrtcCrossState.socketIsHost "x"⟩
      ∧ SrvJs.relayTargeted webrtcCrossState "x" "y" "p0" = none :=
  C10_pong_ignores_rooms.2.2 webrtcCrossState "x" "y" "A" "B" "p0"
    (by decide) (by decide) (by decide) (by decide)

/-- Claim C3, counterexample: in the part_002 revision (a cited source of
the claim) the join route checks only that the room exists.  Joining a
room with `players = max_players = 2` — which the claim says always
fails with `ConflictError(RoomFull)` — succeeds, overwriting the
opponent and storing the updated room. -/
theorem C3_full_room_join_succeeds_in_p2 :
    c3P2Room.max_players ≤ c3P2Room.players
    ∧ (P2.joinRoute [("AAAAA", c3P2Room)] "AAAAA" "carol" 5).1
        = P2.JoinResult.ok ⟨"AAAAA", "alice", "host_1", 2, 2, "ready", 0,
            some "carol", some "player_5"⟩ := by
  decide

/-- Claim C3, amended: in the part_000 (and part_004) revision the join
route performs the claimed checks, in source order — absent room →
`NotFoundError`; `players ≥ maxPlayers` → `RoomFull`; `username = host`
→ `SelfJoin`; `status = 'playing'` → `GameInProgress` — and on every
failure the rooms table is unchanged.  In the part_002 (and part_003)
revision only existence is checked: an absent room yields 404, and
otherwise any username joins unconditionally (opponent overwritten,
`players = 2`, `status = 'ready'`), even when the room is full, the
joiner is the host, or the game is in progress. -/
theorem C3_join_validation_characterization :
    (∀ (rooms : List (String × P0.Room)) (code username : String) (ts : Nat),
        username ≠ "" → alookup rooms code = none →
        P0.joinRoom rooms code username ts = (.error .notFound, rooms))
    ∧ (∀ (rooms : List (String × P0.Room)) (code username : String) (ts : Nat) (r : P0.Room),
        username ≠ "" → alookup rooms code = some r → r.maxPlayers ≤ r.players →
        P0.joinRoom rooms code username ts = (.error .roomFull, rooms))
    ∧ (∀ (rooms : List (String × P0.Room)) (code username : String) (ts : Nat) (r : P0.Room),
        username ≠ "" → alookup rooms code = some r → r.players < r.maxPlayers →
        r.host = username →
        P0.joinRoom rooms code username ts = (.error .selfJoin, rooms))
    ∧ (∀ (rooms : List (String × P0.Room)) (code username : String) (ts : Nat) (r : P0.Room),
        username ≠ "" → alookup rooms code = some r → r.players < r.maxPlayers →
        r.host ≠ username → r.status = "playing" →
        P0.joinRoom rooms code username ts = (.error .gameInProgress, rooms))
    ∧ (∀ (rooms : List (String × P2.RoomRec)) (code username : String) (ts : Nat),
        username ≠ "" → alookup rooms code = none →
        P2.joinRoute rooms code username ts = (.notFound, rooms))
    ∧ (∀ (rooms : List (String × P2.RoomRec)) (code username : String) (ts : Nat)
          (r : P2.RoomRec),
        username ≠ "" → alookup rooms code = some r →
        (P2.joinRoute rooms code username ts).1
          = P2.JoinResult.ok { r with
              opponent := some username
              opponent_id := some ("player_" ++ toString ts)
              players := 2
              status := "ready" }) := by
  refine ⟨?_, ?_, ?_, ?_, ?_, ?_⟩
  · intro rooms code username ts hu habs
    simp [P0.joinRoom, hu, habs]
  · intro rooms code username ts r hu hr hfull
    simp [P0.joinRoom, hu, hr, hfull]
  · intro rooms code username ts r hu hr hroom hhost
    simp [P0.joinRoom, hu, hr, Nat.not_le.mpr hroom, hhost]
  · intro rooms code username ts r hu hr hroom hhost hst
    simp [P0.joinRoom, hu, hr, Nat.not_le.mpr hroom, hhost, hst]
  · intro rooms code username ts hu habs
    simp [P2.joinRoute, hu, habs]
  · intro rooms code username ts r hu hr
    simp [P2.joinRoute, hu, hr]

/-- Claim C3, witness: the part_000 route refuses a full room and an
absent room at concrete inputs, leaving the table unchanged. -/
theorem C3_join_validation_witness :
    P0.joinRoom [("AAAAA", c3P0Room)] "AAAAA" "carol" 7
        = (.error .roomFull, [("AAAAA", c3P0Room)])
      ∧ P0.joinRoom ([] : List (String × P0.Room)) "QQQQQ" "carol" 7 = (.error .notFound, []) :=
  ⟨C3_join_validation_characterization.2.1 [("AAAAA", c3P0Room)] "AAAAA" "carol" 7 c3P0Room
      (by decide) (by decide) (by decide),
   C3_join_validation_characterization.1 [] "QQQQQ" "carol" 7 (by decide) (by decide)⟩

/-- Claim C4: in src/server.js, when a tracked connection leaves (or
disconnects) and removing it empties its room's participant set, the
room is torn down at once — the `activeVideoRooms` entry is dropped, the
lifecycle entry is marked `ended` and then discarded by `cleanupRoom`,
the persisted room record is deleted, the connection is untracked, and a
subsequent `getRoom` on the code yields `NotFoundError`. -/
theorem C4_empty_room_teardown :
    ∀ (s : SrvJs.ServerState) (c : String) (now : Nat) (ui : SrvJs.UserInfo)
      (parts : List String),
      alookup s.userSockets c = some ui →
      alookup s.activeVideoRooms ui.roomId = some parts →
      sdel parts c = [] →
      alookup (SrvJs.handleUserLeaveRoom s c now).rooms ui.roomId = none
      ∧ alookup (SrvJs.handleUserLeaveRoom s c now).roomLifecycle ui.roomId = none
      ∧ alookup (SrvJs.handleUserLeaveRoom s c now).activeVideoRooms ui.roomId = none
      ∧ alookup (SrvJs.handleUserLeaveRoom s c now).userSockets c = none
      ∧ SrvJs.getRoomMem (SrvJs.handleUserLeaveRoom s c now).rooms ui.roomId
          = .error .notFound := by
  intro s c now ui parts hus havr hempty
  unfold SrvJs.handleUserLeaveRoom
  simp only [hus, havr, hempty, List.length_nil, if_true, reduceIte]
  cases hlc : alookup s.roomLifecycle ui.roomId with
  | none =>
      simp [hlc, SrvJs.cleanupRoom, SrvJs.getRoomMem, alookup_adel_self]
  | some lc =>
      simp [hlc, SrvJs.cleanupRoom, SrvJs.getRoomMem, alookup_adel_self]

/-- Claim C4, witness: a concrete room `R` whose only tracked connection
is `c1`; after `c1` leaves, every table has forgotten `R` and `getRoom`
fails. -/
theorem C4_empty_room_teardown_witness :
    alookup (SrvJs.handleUserLeaveRoom c4State "c1" 500).rooms "R" = none
    ∧ alookup (SrvJs.handleUserLeaveRoom c4State "c1" 500).roomLifecycle "R" = none
    ∧ alookup (SrvJs.handleUserLeaveRoom c4State "c1" 500).activeVideoRooms "R" = none
    ∧ alookup (SrvJs.handleUserLeaveRoom c4State "c1" 500).userSockets "c1" = none
    ∧ SrvJs.getRoomMem (SrvJs.handleUserLeaveRoom c4State "c1" 500).rooms "R"
        = .error .notFound :=
  C4_empty_room_teardown c4State "c1" 500 ⟨"R", "u", true⟩ ["c1"]
    (by decide) (by decide) (by decide)

/-- Claim C9: in src/server.js, every `join-video-room` event whose room
has a persisted record rewrites that record with status the literal
string `active` — a value outside the documented status set
waiting/ready/playing/live/abandoned/ended — `players` equal to the
participant count after the join, `last_activity` refreshed, and
`is_live = (count > 0)`; every leave that keeps the participant set
non-empty rewrites it the same way with the remaining count. -/
theorem C9_status_refresh_active :
    (∀ (s : SrvJs.ServerState) (c R u : String) (h : Bool) (now : Nat) (r : SrvJs.RoomRec),
        alookup s.rooms R = some r →
        alookup (SrvJs.joinVideoRoom s c R u h now).rooms R
          = some { r with
              status := "active"
              players := (sadd ((alookup s.activeVideoRooms R).getD []) c).length
              last_activity := some now
              is_live := decide (0 < (sadd ((alookup s.activeVideoRooms R).getD []) c).length) })
    ∧ (∀ (s : SrvJs.ServerState) (c : String) (now : Nat) (ui : SrvJs.UserInfo)
          (parts : List String) (r : SrvJs.RoomRec),
        alookup s.userSockets c = some ui →
        alookup s.activeVideoRooms ui.roomId = some parts →
        sdel parts c ≠ [] →
        alookup s.rooms ui.roomId = some r →
        alookup (SrvJs.handleUserLeaveRoom s c now).rooms ui.roomId
          = some { r with
              status := "active"
              players := (sdel parts c).length
              last_activity := some now
              is_live := decide (0 < (sdel parts c).length) })
    ∧ "active" ∉ (["waiting", "ready", "playing", "live", "abandoned", "ended"] : List String) := by
  refine ⟨?_, ?_, by decide⟩
  · intro s c R u h now r hr
    simp [SrvJs.joinVideoRoom, SrvJs.updateRoomStatusMem, hr, alookup_aset_self]
  · intro s c now ui parts r hus havr hne hr
    have hlen : ¬ ((sdel parts c).length = 0) := by
      simpa [List.length_eq_zero] using hne
    unfold SrvJs.handleUserLeaveRoom
    simp only [hus, havr]
    rw [if_neg hlen]
    cases hlc : alookup s.roomLifecycle ui.roomId with
    | none => simp [hlc, SrvJs.updateRoomStatusMem, hr, alookup_aset_self]
    | some lc => simp [hlc, SrvJs.updateRoomStatusMem, hr, alookup_aset_self]

/-- Claim C9, witness: joining room `R` (stored record present, no prior
participants) rewrites the record to `status = "active"`, `players = 1`,
`is_live = true`. -/
theorem C9_status_refresh_witness :
    alookup (SrvJs.joinVideoRoom c9State "c1" "R" "una" true 42).rooms "R"
      = some { c9Room with
          status := "active"
          players := (sadd ((alookup c9State.activeVideoRooms "R").getD []) "c1").length
          last_activity := some 42
          is_live :=
            decide (0 < (sadd ((alookup c9State.activeVideoRooms "R").getD []) "c1").length) } :=
  C9_status_refresh_active.1 c9State "c1" "R" "una" true 42 c9Room (by decide)

/-- Shared helper: every character `chars.charAt(i)` with `i < 36` drawn
by part_000's generator is in its alphabet. -/
theorem codeChars_getD_mem : ∀ i : Fin 36, P0.codeChars.getD i.val 'A' ∈ P0.codeChars := by
  decide

/-- Shared helper: every upper-cased base-36 digit produced by
src/server.js's generator is in the upper-cased base-36 alphabet. -/
theorem base36Upper_getD_mem : ∀ i : Fin 36, SrvJs.base36Upper.getD i.val '0' ∈ SrvJs.base36Upper := by
  decide

/-- Claim C5, counterexample: src/server.js's `generateRoomCode` (a
cited source of the claim) is
`Math.random().toString(36).substring(2, 7).toUpperCase()`.  For
`Math.random() = 0.5`, `toString(36)` renders `"0.i"` (one fractional
digit, 18), so the produced room code is the one-character string `"I"`
— the claim says every code has exactly five characters (and the
function performs no collision retry at all). -/
theorem C5_short_code_in_serverjs :
    SrvJs.generateRoomCode [(18 : Fin 36)] = "I"
    ∧ (SrvJs.generateRoomCode [(18 : Fin 36)]).length ≠ 5 := by
  decide

/-- Claim C5, amended: part_000's `generateRoomCode` — the revision with
the `do..while` collision loop — returns, when it terminates, a code of
exactly five characters drawn from `A`–`Z`/`0`–`9` that collides with no
existing room key; src/server.js's `generateRoomCode` returns a code of
at most five characters from the upper-cased base-36 alphabet, with no
length guarantee and no collision check. -/
theorem C5_code_generation_characterization :
    (∀ (draws : List P0.Draw) (roomKeys : List String) (c : String),
        P0.generateRoomCode draws roomKeys = some c →
        c.length = 5 ∧ (∀ ch ∈ c.data, ch ∈ P0.codeChars) ∧ c ∉ roomKeys)
    ∧ (∀ ds : List (Fin 36),
        (SrvJs.generateRoomCode ds).length ≤ 5
        ∧ ∀ ch ∈ (SrvJs.generateRoomCode ds).data, ch ∈ SrvJs.base36Upper) := by
  constructor
  · intro draws roomKeys c hfind
    rw [P0.generateRoomCode] at hfind
    have hp := List.find?_some hfind
    have hmem := List.mem_of_find?_eq_some hfind
    obtain ⟨d, -, rfl⟩ := List.mem_map.mp hmem
    refine ⟨rfl, ?_, of_decide_eq_true hp⟩
    intro ch hch
    simp only [P0.codeOfDraw, List.mem_cons, List.not_mem_nil, or_false] at hch
    rcases hch with h | h | h | h | h <;> rw [h] <;> exact codeChars_getD_mem _
  · intro ds
    constructor
    · show ((ds.take 5).map _).length ≤ 5
      rw [List.length_map, List.length_take]
      exact min_le_left 5 ds.length
    · intro ch hch
      have : ch ∈ (ds.take 5).map fun i => SrvJs.base36Upper.getD i.val '0' := hch
      obtain ⟨i, -, rfl⟩ := List.mem_map.mp this
      exact base36Upper_getD_mem i

/-- Claim C5, witness: applying the part_000 part at a concrete draw —
the draw `(0,1,2,3,4)` against the single existing key `ZZZZZ` yields
`ABCDE`, which has five characters from the alphabet and is fresh. -/
theorem C5_code_generation_witness :
    ("ABCDE" : String).length = 5
    ∧ (∀ ch ∈ ("ABCDE" : String).data, ch ∈ P0.codeChars)
    ∧ ("ABCDE" : String) ∉ ["ZZZZZ"] :=
  C5_code_generation_characterization.1 [⟨0, 1, 2, 3, 4⟩] ["ZZZZZ"] "ABCDE" (by decide)

/-- Shared helper: an association-list lookup misses exactly when the key
is absent. -/
theorem alookup_eq_none_iff {β : Type} (l : List (String × β)) (r : String) :
    alookup l r = none ↔ r ∉ l.map Prod.fst := by
  induction l with
  | nil => simp [alookup]
  | cons e t ih =>
    obtain ⟨a, b⟩ := e
    by_cases h : a = r
    · simp [alookup, h]
    · simp [alookup, h, ih, Ne.symm h]

/-- Shared helper: no entry keyed `r` satisfies a per-entry test when `r`
is not among the keys. -/
theorem any_key_false_of_not_mem {β : Type} (P : β → Bool) (entries : List (String × β))
    (r : String) (hn : r ∉ entries.map Prod.fst) :
    (entries.any fun e => decide (e.1 = r) && P e.2) = false := by
  rw [List.any_eq_false]
  intro e he
  have hne : e.1 ≠ r := by
    intro hh
    exact hn (hh ▸ List.mem_map_of_mem Prod.fst he)
  simp [hne]

/-- Shared helper: with unique keys, testing whether some entry keyed `r`
satisfies `P` is exactly testing the looked-up value. -/
theorem any_key_eq_of_nodup {β : Type} (P : β → Bool) :
    ∀ (entries : List (String × β)) (r : String), (entries.map Prod.fst).Nodup →
      (entries.any fun e => decide (e.1 = r) && P e.2)
        = ((alookup entries r).map P).getD false := by
  intro entries
  induction entries with
  | nil => intro r _; simp [alookup]
  | cons e t ih =>
    intro r h
    obtain ⟨a, b⟩ := e
    simp only [List.map_cons, List.nodup_cons] at h
    obtain ⟨hna, hnd⟩ := h
    by_cases hk : a = r
    · subst hk
      have htail := any_key_false_of_not_mem P t a hna
      simp [alookup, List.any_cons, htail]
    · simp [alookup, List.any_cons, hk, ih r hnd]

/-- Shared helper: with unique keys, filtering an association list keeps
or drops the entire binding of a present key according to the
predicate. -/
theorem alookup_filter_of_nodup {β : Type} (p : String × β → Bool) :
    ∀ (l : List (String × β)) (r : String) (v : β), (l.map Prod.fst).Nodup →
      alookup l r = some v →
      alookup (l.filter p) r = if p (r, v) then some v else none := by
  intro l
  induction l with
  | nil => intro r v _ hl; exact absurd hl (by simp [alookup])
  | cons e t ih =>
    intro r v h hl
    obtain ⟨a, b⟩ := e
    simp only [List.map_cons, List.nodup_cons] at h
    obtain ⟨hna, hnd⟩ := h
    by_cases hk : a = r
    · subst hk
      rw [alookup] at hl
      simp only [if_pos rfl] at hl
      obtain rfl : v = b := by injection hl with hh; exact hh.symm
      have htnone : alookup t a = none := (alookup_eq_none_iff t a).mpr hna
      cases hp : p (a, v) with
      | true =>
          simp [List.filter_cons, hp, alookup]
      | false =>
          simp only [List.filter_cons, hp, Bool.false_eq_true, if_false]
          rw [alookup_eq_none_iff]
          intro hmem
          exact hna (List.map_subset Prod.fst (List.filter_subset' t) hmem)
    · rw [alookup] at hl
      simp only [if_neg hk] at hl
      cases hp : p (a, b) with
      | true => simp [List.filter_cons, hp, alookup, hk, ih r v hnd hl]
      | false => simp [List.filter_cons, hp, ih r v hnd hl]

/-- Shared helper: after the src/server.js sweep loop, a code's persisted
room record survives exactly when no visited lifecycle entry with that
key was doomed (each doomed entry triggers `cleanupRoom`, which deletes
the room record under the same key). -/
theorem sweep_fold_rooms (now : Nat) :
    ∀ (entries : List (String × SrvJs.Lifecycle)) (acc : SrvJs.ServerState) (r : String),
      alookup (entries.foldl
          (fun a e => if SrvJs.sweepDoomed now e.2 then SrvJs.cleanupRoom a e.1 else a) acc).rooms r
        = if (entries.any fun e => decide (e.1 = r) && SrvJs.sweepDoomed now e.2) then none
          else alookup acc.rooms r := by
  intro entries
  induction entries with
  | nil => intro acc r; simp
  | cons e t ih =>
    intro acc r
    simp only [List.foldl_cons, List.any_cons]
    by_cases hd : SrvJs.sweepDoomed now e.2 = true
    · rw [if_pos hd, ih]
      simp only [hd, Bool.and_true]
      by_cases hk : e.1 = r
      · simp [hk, SrvJs.cleanupRoom, alookup_adel_self]
      · have hne : r ≠ e.1 := fun hh => hk hh.symm
        simp only [decide_eq_false hk, Bool.false_or]
        simp [SrvJs.cleanupRoom, alookup_adel_of_ne acc.rooms e.1 r hne]
    · have hd2 : SrvJs.sweepDoomed now e.2 = false := Bool.eq_false_iff.mpr hd
      rw [if_neg hd, ih]
      simp only [hd2, Bool.and_false, Bool.false_or]

/-- Shared helper: the same survival condition for the lifecycle entries
themselves. -/
theorem sweep_fold_lifecycle (now : Nat) :
    ∀ (entries : List (String × SrvJs.Lifecycle)) (acc : SrvJs.ServerState) (r : String),
      alookup (entries.foldl
          (fun a e => if SrvJs.sweepDoomed now e.2 then SrvJs.cleanupRoom a e.1 else a)
          acc).roomLifecycle r
        = if (entries.any fun e => decide (e.1 = r) && SrvJs.sweepDoomed now e.2) then none
          else alookup acc.roomLifecycle r := by
  intro entries
  induction entries with
  | nil => intro acc r; simp
  | cons e t ih =>
    intro acc r
    simp only [List.foldl_cons, List.any_cons]
    by_cases hd : SrvJs.sweepDoomed now e.2 = true
    · rw [if_pos hd, ih]
      simp only [hd, Bool.and_true]
      by_cases hk : e.1 = r
      · simp [hk, SrvJs.cleanupRoom, alookup_adel_self]
      · have hne : r ≠ e.1 := fun hh => hk hh.symm
        simp only [decide_eq_false hk, Bool.false_or]
        simp [SrvJs.cleanupRoom, alookup_adel_of_ne acc.roomLifecycle e.1 r hne]
    · have hd2 : SrvJs.sweepDoomed now e.2 = false := Bool.eq_false_iff.mpr hd
      rw [if_neg hd, ih]
      simp only [hd2, Bool.and_false, Bool.false_or]

/-- Claim C6, counterexample: a room record `R` young enough that the
claim's age clause does not apply, whose lifecycle entry has status
`ended`.  The claim says the sweep deletes exactly the doomed lifecycle
entries plus the aged lifecycle-less room records, and that every other
room record survives unchanged; the src/server.js sweep instead deletes
`R`'s room record too (its `cleanupRoom` call removes both the lifecycle
entry and the record). -/
theorem C6_sweep_deletes_room_record :
    alookup (SrvJs.sweep c6EndedState 1000).rooms "R" = none
    ∧ alookup (SrvJs.claimSweepRooms c6EndedState.roomLifecycle c6EndedState.rooms
          1000 P0.MAX_AGE) "R" = some c6Room
    ∧ 1000 - c6Room.created ≤ P0.MAX_AGE := by
  decide

/-- Claim C6, amended: for the src/server.js periodic sweep (the only
revision with lifecycle entries, and one with no age-based pass): a
lifecycle entry is deleted exactly when its status is `ended` or its
participant set is empty and `now - lastActivity` exceeds the 30-minute
stale timeout; the sweep also deletes the persisted room record of every
lifecycle entry it deletes, and no other room record.  The age-based
deletion lives in the part_000 revision (which tracks no lifecycle
entries): its hourly cleanup deletes exactly the rooms with
`now - created` above the 24-hour max age. -/
theorem C6_sweep_characterization :
    (∀ (s : SrvJs.ServerState) (now : Nat) (r : String) (lc : SrvJs.Lifecycle),
        (s.roomLifecycle.map Prod.fst).Nodup →
        alookup s.roomLifecycle r = some lc → SrvJs.sweepDoomed now lc = true →
        alookup (SrvJs.sweep s now).roomLifecycle r = none
        ∧ alookup (SrvJs.sweep s now).rooms r = none)
    ∧ (∀ (s : SrvJs.ServerState) (now : Nat) (r : String) (lc : SrvJs.Lifecycle),
        (s.roomLifecycle.map Prod.fst).Nodup →
        alookup s.roomLifecycle r = some lc → SrvJs.sweepDoomed now lc = false →
        alookup (SrvJs.sweep s now).roomLifecycle r = some lc
        ∧ alookup (SrvJs.sweep s now).rooms r = alookup s.rooms r)
    ∧ (∀ (s : SrvJs.ServerState) (now : Nat) (r : String),
        alookup s.roomLifecycle r = none →
        alookup (SrvJs.sweep s now).roomLifecycle r = none
        ∧ alookup (SrvJs.sweep s now).rooms r = alookup s.rooms r)
    ∧ (∀ (rooms : List (String × P0.Room)) (now : Nat) (r : String) (room : P0.Room),
        (rooms.map Prod.fst).Nodup →
        alookup rooms r = some room →
        alookup (P0.cleanupOldRooms rooms now) r
          = if P0.MAX_AGE < now - room.created then none else some room) := by
  refine ⟨?_, ?_, ?_, ?_⟩
  · intro s now r lc hnd hlc hdoomed
    have hany := any_key_eq_of_nodup (SrvJs.sweepDoomed now) s.roomLifecycle r hnd
    rw [hlc] at hany
    simp only [Option.map_some', Option.getD_some, hdoomed] at hany
    constructor
    · rw [SrvJs.sweep, sweep_fold_lifecycle, hany, if_pos rfl]
    · rw [SrvJs.sweep, sweep_fold_rooms, hany, if_pos rfl]
  · intro s now r lc hnd hlc hlive
    have hany := any_key_eq_of_nodup (SrvJs.sweepDoomed now) s.roomLifecycle r hnd
    rw [hlc] at hany
    simp only [Option.map_some', Option.getD_some, hlive] at hany
    constructor
    · rw [SrvJs.sweep, sweep_fold_lifecycle, hany]
      simpa using hlc
    · rw [SrvJs.sweep, sweep_fold_rooms, hany]
      simp
  · intro s now r hlc
    have hnone := (alookup_eq_none_iff s.roomLifecycle r).mp hlc
    have hany := any_key_false_of_not_mem (SrvJs.sweepDoomed now) s.roomLifecycle r hnone
    constructor
    · rw [SrvJs.sweep, sweep_fold_lifecycle, hany]
      simpa using hlc
    · rw [SrvJs.sweep, sweep_fold_rooms, hany]
      simp
  · intro rooms now r room hnd hr
    have hfilter := alookup_filter_of_nodup
      (fun e => decide (¬ (P0.MAX_AGE < now - e.2.created))) rooms r room hnd hr
    rw [P0.cleanupOldRooms, hfilter]
    by_cases hage : P0.MAX_AGE < now - room.created
    · simp [hage]
    · simp [hage]

/-- Claim C6, witness: a lifecycle entry with no participants, stale for
an hour, is swept together with its room record at a concrete state. -/
theorem C6_sweep_witness :
    alookup (SrvJs.sweep c6StaleState 3600000).roomLifecycle "S" = none
    ∧ alookup (SrvJs.sweep c6StaleState 3600000).rooms "S" = none :=
  C6_sweep_characterization.1 c6StaleState 3600000 "S" ⟨0, 0, "active", []⟩
    (by decide) (by decide) (by decide)

/-- Claim C7, counterexample: in the part_003 revision (identical create
route in part_002, the cited source), a Supabase insert error makes the
create-room route answer HTTP 500 `Database error` to the caller, with
no fallback write to the in-memory table — the claim says the operation
falls back and still returns success. -/
theorem C7_create_500_on_db_error :
    P3.createRoomRoute .fail "alice" "AB12C" 7 [] = ((500, .dbError), []) := by
  decide

/-- Claim C7, amended: when the durable insert fails, src/server.js's
create-room route degrades to the transient in-memory table, stores the
new record there, and still answers 201 with the room; in the
part_002/part_003 revisions the same failure is surfaced to the caller
as HTTP 500 `Database error` with nothing written anywhere, so those
callers do fail solely because the durable backend is unreachable. -/
theorem C7_fallback_characterization :
    (∀ (host code : String) (now : Nat) (rooms : List (String × SrvJs.RoomRec)),
        host ≠ "" →
        (SrvJs.createRoomRoute .fail host code now rooms).1.statusCode = 201
        ∧ (SrvJs.createRoomRoute .fail host code now rooms).1.room
            = some (SrvJs.newRoomData host code now)
        ∧ alookup (SrvJs.createRoomRoute .fail host code now rooms).2 code
            = some (SrvJs.newRoomData host code now))
    ∧ (∀ (host code : String) (now : Nat) (rooms : List (String × P3.RoomRec)),
        host ≠ "" →
        P3.createRoomRoute .fail host code now rooms = ((500, .dbError), rooms)) := by
  constructor
  · intro host code now rooms hh
    refine ⟨?_, ?_, ?_⟩ <;> simp [SrvJs.createRoomRoute, hh, alookup_aset_self]
  · intro host code now rooms hh
    simp [P3.createRoomRoute, hh]

/-- Claim C7, witness: a concrete failed durable insert — src/server.js
answers 201 and stores the room in the transient table. -/
theorem C7_fallback_witness :
    (SrvJs.createRoomRoute .fail "alice" "AB12C" 7 []).1.statusCode = 201
    ∧ (SrvJs.createRoomRoute .fail "alice" "AB12C" 7 []).1.room
        = some (SrvJs.newRoomData "alice" "AB12C" 7)
    ∧ alookup (SrvJs.createRoomRoute .fail "alice" "AB12C" 7 []).2 "AB12C"
        = some (SrvJs.newRoomData "alice" "AB12C" 7) :=
  C7_fallback_characterization.1 "alice" "AB12C" 7 [] (by decide)

/-- Claim C8, counterexample: part_000's `GET /api/rooms` (a cited
source of the claim) filters on `status !== 'completed'`, so a room
whose status is the literal string `ended` — which the claim says is
excluded — is returned. -/
theorem C8_listing_includes_ended :
    c8Room.status = "ended"
    ∧ P0.listActiveRooms [("ABCDE", c8Room)] 1000 = [c8Room] := by
  decide

/-- Claim C8, amended: part_000's listing returns exactly the rooms with
`status ≠ 'completed'` and `now - created` under 24 hours;
src/server.js's in-memory listing returns exactly the rooms with
`status ≠ 'ended'` with no age bound; neither sorts — each result is a
subsequence of the table's insertion order (only the Supabase query path
of src/server.js orders by `created` descending, and it applies no age
bound either). -/
theorem C8_listing_characterization :
    (∀ (rooms : List (String × P0.Room)) (now : Nat) (r : P0.Room),
        r ∈ P0.listActiveRooms rooms now
          ↔ (∃ c, (c, r) ∈ rooms) ∧ r.status ≠ "completed" ∧ now - r.created < P0.MAX_AGE)
    ∧ (∀ (rooms : List (String × P0.Room)) (now : Nat),
        List.Sublist (P0.listActiveRooms rooms now) (rooms.map Prod.snd))
    ∧ (∀ (rooms : List (String × SrvJs.RoomRec)) (r : SrvJs.RoomRec),
        r ∈ SrvJs.listRoomsMem rooms ↔ (∃ c, (c, r) ∈ rooms) ∧ r.status ≠ "ended")
    ∧ (∀ (rooms : List (String × SrvJs.RoomRec)),
        List.Sublist (SrvJs.listRoomsMem rooms) (rooms.map Prod.snd)) := by
  refine ⟨?_, ?_, ?_, ?_⟩
  · intro rooms now r
    simp only [P0.listActiveRooms, List.mem_filter, List.mem_map, decide_eq_true_eq]
    constructor
    · rintro ⟨⟨⟨c, v⟩, hmem, rfl⟩, hst, hage⟩
      exact ⟨⟨c, hmem⟩, hst, hage⟩
    · rintro ⟨⟨c, hmem⟩, hst, hage⟩
      exact ⟨⟨⟨c, r⟩, hmem, rfl⟩, hst, hage⟩
  · intro rooms now
    exact List.filter_sublist _
  · intro rooms r
    simp only [SrvJs.listRoomsMem, List.mem_filter, List.mem_map, decide_eq_true_eq]
    constructor
    · rintro ⟨⟨⟨c, v⟩, hmem, rfl⟩, hst⟩
      exact ⟨⟨c, hmem⟩, hst⟩
    · rintro ⟨⟨c, hmem⟩, hst⟩
      exact ⟨⟨⟨c, r⟩, hmem, rfl⟩, hst⟩
  · intro rooms
    exact List.filter_sublist _
